import Mathlib

/-!
Formal model of the PhaserAI serverless backend
(`infra/lambda-functions/db_utils.py`, `users.py`, `languages.py`,
`words.py`, `migration.py`), with theorems about its request-handling
and migration behaviour.

Python values appearing in request bodies, database rows and response
envelopes are embedded as the inductive type `PyVal`.  Each handler
function is embedded as a pure Lean function threading the database
state and a trace of the SQL statements it executes.
-/

namespace PhaserAI

/-- JSON-style Python values: `None`, booleans, integers, strings, lists
and (insertion-ordered) dicts with string keys. -/
inductive PyVal where
  | none
  | bool (b : Bool)
  | int (n : Int)
  | str (s : String)
  | list (items : List PyVal)
  | dict (entries : List (String × PyVal))

/-- Equality on the scalar `PyVal`s that SQL column values and the
compared request fields take (`TEXT`/`UUID` columns hold strings).
Python `==`/`!=` and SQL `=` in the handlers only ever compare such
scalars; two structured values are never compared by the embedded code
paths, so they are mapped to `false` here. -/
def pyScalarEq : PyVal → PyVal → Bool
  | .none, .none => true
  | .bool a, .bool b => a == b
  | .int a, .int b => a == b
  | .str a, .str b => a == b
  | _, _ => false

/-- SQL equality between a text column value and a query parameter
supplied as a plain string. -/
def pyEqStr (v : PyVal) (s : String) : Bool :=
  pyScalarEq v (.str s)

/-- Python truthiness on `PyVal` (used for `if body:`-style tests). -/
def PyVal.truthy : PyVal → Bool
  | .none => false
  | .bool b => b
  | .int n => n != 0
  | .str s => s != ""
  | .list items => !items.isEmpty
  | .dict entries => !entries.isEmpty

/-- A Python dict with string keys, as an insertion-ordered association list. -/
abbrev PyDict := List (String × PyVal)

/-- `d.get(k)`: the value at key `k`, if present. -/
def pyGet (d : PyDict) (k : String) : Option PyVal :=
  (d.find? (fun kv => kv.1 == k)).map (fun kv => kv.2)

/-- `k in d`: key-membership test. -/
def hasKey (d : PyDict) (k : String) : Bool :=
  d.any (fun kv => kv.1 == k)

/-- `d.get(k, default)`. -/
def pyGetD (d : PyDict) (k : String) (default : PyVal) : PyVal :=
  (pyGet d k).getD default

/-- `d[k] = v`: overwrite in place when the key exists (keeping its
position, as Python dicts do), else append. -/
def pyDictInsert (d : PyDict) (k : String) (v : PyVal) : PyDict :=
  if hasKey d k then d.map (fun kv => if kv.1 == k then (k, v) else kv)
  else d ++ [(k, v)]

/-- `dict(pairs)`: build a dict from pairs, later duplicates overwriting
earlier ones (as `dict(zip(columns, row))` does). -/
def pyDictOfPairs (pairs : List (String × PyVal)) : PyDict :=
  pairs.foldl (fun d kv => pyDictInsert d kv.1 kv.2) []

/-! ### A model of `json.loads`

`json.loads` is the Python standard library JSON parser, external to the
repository.  It is modelled here by a small recursive-descent parser over
the JSON grammar restricted to the shapes the handlers exchange: `null`,
booleans, integers, strings (with the `\"`, `\\` and `\/` escapes),
arrays and objects.  A malformed input yields `Except.error`, matching
the behaviour of `json.loads`, which raises `JSONDecodeError`. -/

def lbraceChar : Char := Char.ofNat 123

def rbraceChar : Char := Char.ofNat 125

def isWsChar (c : Char) : Bool :=
  c == ' ' || c == '\n' || c == '\t' || c == '\r'

def skipWs (cs : List Char) : List Char :=
  cs.dropWhile isWsChar

/-- Scan a JSON string body after the opening quote, returning the
decoded string and the remaining input. -/
def parseStringGo : List Char → List Char → Except String (String × List Char)
  | [], _ => .error "unterminated string"
  | c :: rest, acc =>
    if c == '"' then .ok (String.mk acc.reverse, rest)
    else if c == '\\' then
      match rest with
      | [] => .error "unterminated escape"
      | e :: rest2 =>
        if e == '"' || e == '\\' || e == '/' then parseStringGo rest2 (e :: acc)
        else .error "unsupported escape"
    else parseStringGo rest (c :: acc)

def digitsToNat (ds : List Char) : Nat :=
  ds.foldl (fun n c => 10 * n + (c.toNat - 48)) 0

/-- Parse a JSON integer (the only numeric shape the handlers use). -/
def parseNumber (cs : List Char) : Except String (PyVal × List Char) :=
  match cs with
  | '-' :: rest =>
    let p := rest.span (fun c => c.isDigit)
    if p.1.isEmpty then .error "invalid number"
    else .ok (.int (-(digitsToNat p.1 : Int)), p.2)
  | _ =>
    let p := cs.span (fun c => c.isDigit)
    if p.1.isEmpty then .error "invalid number"
    else .ok (.int (digitsToNat p.1), p.2)

mutual

def parseVal : Nat → List Char → Except String (PyVal × List Char)
  | 0, _ => .error "input too deep"
  | fuel + 1, cs =>
    match skipWs cs with
    | [] => .error "unexpected end of input"
    | c :: rest =>
      if c == 'n' then
        match rest with
        | 'u' :: 'l' :: 'l' :: rest2 => .ok (.none, rest2)
        | _ => .error "invalid literal"
      else if c == 't' then
        match rest with
        | 'r' :: 'u' :: 'e' :: rest2 => .ok (.bool true, rest2)
        | _ => .error "invalid literal"
      else if c == 'f' then
        match rest with
        | 'a' :: 'l' :: 's' :: 'e' :: rest2 => .ok (.bool false, rest2)
        | _ => .error "invalid literal"
      else if c == '"' then
        (parseStringGo rest []).map (fun p => (PyVal.str p.1, p.2))
      else if c == '[' then
        match skipWs rest with
        | [] => .error "unterminated array"
        | d :: rest2 =>
          if d == ']' then .ok (.list [], rest2)
          else parseElems fuel (d :: rest2) []
      else if c == lbraceChar then
        match skipWs rest with
        | [] => .error "unterminated object"
        | d :: rest2 =>
          if d == rbraceChar then .ok (.dict [], rest2)
          else parseMembers fuel (d :: rest2) []
      else if c == '-' || c.isDigit then parseNumber (c :: rest)
      else .error "unexpected character"

def parseElems : Nat → List Char → List PyVal → Except String (PyVal × List Char)
  | 0, _, _ => .error "input too deep"
  | fuel + 1, cs, acc =>
    match parseVal fuel cs with
    | .error e => .error e
    | .ok (v, rest) =>
      match skipWs rest with
      | [] => .error "unterminated array"
      | c :: rest2 =>
        if c == ',' then parseElems fuel rest2 (acc ++ [v])
        else if c == ']' then .ok (.list (acc ++ [v]), rest2)
        else .error "expected comma or close bracket"

def parseMembers : Nat → List Char → PyDict → Except String (PyVal × List Char)
  | 0, _, _ => .error "input too deep"
  | fuel + 1, cs, acc =>
    match skipWs cs with
    | [] => .error "unterminated object"
    | c :: rest =>
      if c == '"' then
        match parseStringGo rest [] with
        | .error e => .error e
        | .ok (k, rest2) =>
          match skipWs rest2 with
          | ':' :: rest3 =>
            match parseVal fuel rest3 with
            | .error e => .error e
            | .ok (v, rest4) =>
              match skipWs rest4 with
              | [] => .error "unterminated object"
              | d :: rest5 =>
                if d == ',' then parseMembers fuel rest5 (pyDictInsert acc k v)
                else if d == rbraceChar then .ok (.dict (pyDictInsert acc k v), rest5)
                else .error "expected comma or close brace"
          | _ => .error "expected colon"
      else .error "expected string key"

end

/-- Model of `json.loads`: parse one JSON value and require the rest of
the input to be whitespace. -/
def jsonLoads (s : String) : Except String PyVal :=
  match parseVal (2 * s.length + 2) s.data with
  | .error e => .error e
  | .ok (v, rest) =>
    if (skipWs rest).isEmpty then .ok v else .error "extra data"

example : jsonLoads "\x7b\x7d" = .ok (.dict []) := rfl

example : jsonLoads "[1, -2, null]" = .ok (.list [.int 1, .int (-2), .none]) := rfl

example :
    jsonLoads "\x7b\"a\": true, \"b\": \"x\"\x7d"
      = .ok (.dict [("a", .bool true), ("b", .str "x")]) := rfl

example : jsonLoads "\x7b" = .error "unterminated object" := rfl

/-! ### `db_utils.lambda_response`

The handlers under study never pass the optional `headers` argument, so
the envelope always carries exactly the default header set.  The final
`json.dumps(body, default=str)` serialization is transport glue; the
envelope keeps the structured body. -/

structure LambdaResponse where
  statusCode : Nat
  headers : List (String × String)
  body : PyVal

def default_headers : List (String × String) :=
  [("Content-Type", "application/json"),
   ("Access-Control-Allow-Origin", "*"),
   ("Access-Control-Allow-Methods", "GET, POST, PUT, DELETE, OPTIONS"),
   ("Access-Control-Allow-Headers", "Content-Type, Authorization")]

def lambda_response (statusCode : Nat) (body : PyVal) : LambdaResponse :=
  { statusCode := statusCode, headers := default_headers, body := body }

/-- The single-key error bodies the handlers build. -/
def errorBody (msg : String) : PyVal :=
  .dict [("error", .str msg)]

/-! ### `db_utils.extract_body` -/

/-- `extract_body(event)`: take the body key, defaulting to the
two-character empty-object string; if the result is a string,
JSON-parse it when non-empty (the empty string gives an empty dict); a
structured body passes through unchanged.  `Except.error` models the
`json.loads` exception escaping to the caller. -/
def extract_body (event : PyDict) : Except String PyVal :=
  let body := pyGetD event "body" (.str "\x7b\x7d")
  match body with
  | .str s => if s != "" then jsonLoads s else .ok (.dict [])
  | v => .ok v

/-! ### `db_utils.execute_query`

`execute_query` is generic in the statement it runs, so it is embedded
over an abstract database state `σ` and a statement semantics `exec`
standing for `cursor.execute` on the fresh connection: on success it
yields the post-statement state (still uncommitted), the cursor
description (column names, when the statement returns rows) and the
fetched rows plus `rowcount`; on failure it raises.  `connection.commit`
publishes the post-statement state; `connection.rollback` discards it,
leaving the pre-call state.  The `finally` block closes the cursor and
the connection on every path. -/

inductive StmtOutcome (σ : Type) where
  | ok (newState : σ) (description : Option (List String))
       (rows : List (List PyVal)) (rowcount : Int)
  | raised (msg : String)

structure ExecResult (σ : Type) where
  result : Except String PyVal
  state : σ
  cursorClosed : Bool
  connectionClosed : Bool

def fetchResult (description : Option (List String)) (rows : List (List PyVal)) : PyVal :=
  let columns := description.getD []
  .list (rows.map (fun row => .dict (pyDictOfPairs (columns.zip row))))

def execute_query {σ : Type} (exec : σ → StmtOutcome σ) (fetch : Bool) (s : σ) :
    ExecResult σ :=
  match exec s with
  | .ok s2 description rows rowcount =>
    if fetch then
      { result := .ok (fetchResult description rows), state := s2,
        cursorClosed := true, connectionClosed := true }
    else
      { result := .ok (.int rowcount), state := s2,
        cursorClosed := true, connectionClosed := true }
  | .raised e =>
    { result := .error e, state := s,
      cursorClosed := true, connectionClosed := true }

/-! ### Relational state shared by the resource handlers

Rows mirror the `app_8b514_*` tables created by the initial migration.
Server-generated identifiers (`uuid_generate_v4`) and creation
timestamps (`NOW()`) are drawn from a monotone counter `nextId`.
Identifier and owner columns are `TEXT`/`UUID` and therefore hold
strings; the remaining payload columns hold whatever value the handler
bound for them. -/

structure UserRow where
  user_id : PyVal
  email : PyVal
  username : PyVal
  created_at : Nat

structure LanguageRow where
  id : String
  user_id : PyVal
  name : PyVal
  phonemes : PyVal
  alphabet_mappings : PyVal
  syllables : PyVal
  rules : PyVal
  created_at : Nat

structure WordRow where
  id : String
  language_id : PyVal
  word : PyVal
  ipa : PyVal
  pos : PyVal
  is_root : PyVal
  embedding : PyVal
  created_at : Nat

structure TranslationRow where
  id : String
  word_id : String
  language_code : PyVal
  meaning : PyVal
  created_at : Nat

structure DB where
  users : List UserRow
  languages : List LanguageRow
  words : List WordRow
  translations : List TranslationRow
  nextId : Nat

/-- A fresh generated identifier and the advanced state. -/
def genId (db : DB) : String × Nat × DB :=
  ("uuid-" ++ toString db.nextId, db.nextId, { db with nextId := db.nextId + 1 })

/-- One `execute_query` call a handler made: the SQL text, its bound
parameters, and the `fetch` flag. -/
structure ExecCall where
  query : String
  params : List PyVal
  fetch : Bool

/-- SQL statements are recorded with collapsed whitespace; an update
statement is recognized by its leading keyword. -/
def ExecCall.isUpdateStmt (c : ExecCall) : Bool :=
  c.query.startsWith "UPDATE"

/-- `path_params.get(...)`/`query_params.get(...)` yield optional strings;
Python truthiness on them: present and non-empty. -/
def truthyOptStr : Option String → Bool
  | some s => s != ""
  | _ => false

/-- The shared required-field loop of the create handlers: the first
field of the fixed list that is absent from the body. -/
def firstMissing (fields : List String) (data : PyDict) : Option String :=
  fields.find? (fun f => !(hasKey data f))

/-! ### `users.py` -/

def userRowDict (u : UserRow) : PyVal :=
  .dict [("user_id", u.user_id), ("email", u.email),
         ("username", u.username), ("created_at", .int u.created_at)]

def required_fields_user : List String := ["user_id", "email", "username"]

def upsertUserQuery : String :=
  "INSERT INTO app_8b514_users (user_id, email, username) VALUES (%s, %s, %s) ON CONFLICT (user_id) DO UPDATE SET email = EXCLUDED.email, username = EXCLUDED.username RETURNING *"

/-- `create_or_update_user`: validate the required fields, then upsert
keyed on `user_id` (`ON CONFLICT` overwrites `email`/`username`). -/
def create_or_update_user (user_data : PyDict) (db : DB) :
    LambdaResponse × DB × List ExecCall :=
  match firstMissing required_fields_user user_data with
  | some f => (lambda_response 400 (errorBody ("Missing required field: " ++ f)), db, [])
  | none =>
    let uid := pyGetD user_data "user_id" .none
    let email := pyGetD user_data "email" .none
    let username := pyGetD user_data "username" .none
    let call : ExecCall := ⟨upsertUserQuery, [uid, email, username], true⟩
    match db.users.find? (fun u => pyScalarEq u.user_id uid) with
    | some u0 =>
      let newRow := { u0 with email := email, username := username }
      let users2 := db.users.map (fun u =>
        if pyScalarEq u.user_id uid then { u with email := email, username := username } else u)
      (lambda_response 201 (userRowDict newRow), { db with users := users2 }, [call])
    | none =>
      let newRow : UserRow :=
        { user_id := uid, email := email, username := username, created_at := db.nextId }
      (lambda_response 201 (userRowDict newRow),
       { db with users := db.users ++ [newRow], nextId := db.nextId + 1 }, [call])

/-- The `update_fields`/`params` pair `update_user` accumulates. -/
def userUpdateFields (d : PyDict) : List String × List PyVal :=
  let acc : List String × List PyVal := ([], [])
  let acc := if hasKey d "email" then
    (acc.1 ++ ["email = %s"], acc.2 ++ [pyGetD d "email" .none]) else acc
  let acc := if hasKey d "username" then
    (acc.1 ++ ["username = %s"], acc.2 ++ [pyGetD d "username" .none]) else acc
  acc

/-- The `SET` effect of the dynamically built user update statement. -/
def applyUserUpdate (d : PyDict) (u : UserRow) : UserRow :=
  { u with
    email := if hasKey d "email" then pyGetD d "email" .none else u.email,
    username := if hasKey d "username" then pyGetD d "username" .none else u.username }

/-- `update_user`: 400 on a missing path id or an empty field set,
otherwise a single dynamic `UPDATE ... RETURNING *`. -/
def update_user (user_id : Option String) (user_data : PyDict) (db : DB) :
    LambdaResponse × DB × List ExecCall :=
  if !truthyOptStr user_id then
    (lambda_response 400 (errorBody "User ID is required"), db, [])
  else
    let uid := user_id.getD ""
    let fp := userUpdateFields user_data
    if fp.1.isEmpty then
      (lambda_response 400 (errorBody "No fields to update"), db, [])
    else
      let query := "UPDATE app_8b514_users SET " ++ String.intercalate ", " fp.1
        ++ " WHERE user_id = %s RETURNING *"
      let call : ExecCall := ⟨query, fp.2 ++ [.str uid], true⟩
      let updated := (db.users.filter (fun u => pyEqStr u.user_id uid)).map (applyUserUpdate user_data)
      let users2 := db.users.map (fun u =>
        if pyEqStr u.user_id uid then applyUserUpdate user_data u else u)
      let db2 := { db with users := users2 }
      match updated with
      | [] => (lambda_response 404 (errorBody "User not found"), db2, [call])
      | r :: _ => (lambda_response 200 (userRowDict r), db2, [call])

/-! ### `languages.py` -/

def languageRowDict (l : LanguageRow) : PyVal :=
  .dict [("id", .str l.id), ("user_id", l.user_id), ("name", l.name),
         ("phonemes", l.phonemes), ("alphabet_mappings", l.alphabet_mappings),
         ("syllables", l.syllables), ("rules", l.rules),
         ("created_at", .int l.created_at)]

def required_fields_language : List String := ["user_id", "name"]

def createLanguageQuery : String :=
  "INSERT INTO app_8b514_languages (user_id, name, phonemes, alphabet_mappings, syllables, rules) VALUES (%s, %s, %s, %s, %s, %s) RETURNING *"

def selectLanguageOwnerQuery : String :=
  "SELECT user_id FROM app_8b514_languages WHERE id = %s"

def verifyLanguageOwnerQuery : String :=
  "SELECT id FROM app_8b514_languages WHERE id = %s AND user_id = %s"

def defaultPhonemes : PyVal :=
  .dict [("consonants", .list []), ("vowels", .list []), ("diphthongs", .list [])]

def defaultAlphabetMappings : PyVal :=
  .dict [("consonants", .dict []), ("vowels", .dict []), ("diphthongs", .dict [])]

/-- `create_language`: validate required fields, fill defaults, insert.
`json.dumps` on the two JSONB parameters round-trips through the
database (`::jsonb`), so the stored value is the structured one. -/
def create_language (language_data : PyDict) (db : DB) :
    LambdaResponse × DB × List ExecCall :=
  match firstMissing required_fields_language language_data with
  | some f => (lambda_response 400 (errorBody ("Missing required field: " ++ f)), db, [])
  | none =>
    let row : LanguageRow :=
      { id := "uuid-" ++ toString db.nextId,
        user_id := pyGetD language_data "user_id" .none,
        name := pyGetD language_data "name" .none,
        phonemes := pyGetD language_data "phonemes" defaultPhonemes,
        alphabet_mappings := pyGetD language_data "alphabet_mappings" defaultAlphabetMappings,
        syllables := pyGetD language_data "syllables" (.str "CV"),
        rules := pyGetD language_data "rules" (.str ""),
        created_at := db.nextId }
    let call : ExecCall :=
      ⟨createLanguageQuery,
       [row.user_id, row.name, row.phonemes, row.alphabet_mappings, row.syllables, row.rules],
       true⟩
    (lambda_response 201 (languageRowDict row),
     { db with languages := db.languages ++ [row], nextId := db.nextId + 1 }, [call])

/-- The `update_fields`/`params` pair `update_language` accumulates. -/
def languageUpdateFields (d : PyDict) : List String × List PyVal :=
  let acc : List String × List PyVal := ([], [])
  let acc := if hasKey d "name" then
    (acc.1 ++ ["name = %s"], acc.2 ++ [pyGetD d "name" .none]) else acc
  let acc := if hasKey d "phonemes" then
    (acc.1 ++ ["phonemes = %s"], acc.2 ++ [pyGetD d "phonemes" .none]) else acc
  let acc := if hasKey d "alphabet_mappings" then
    (acc.1 ++ ["alphabet_mappings = %s"], acc.2 ++ [pyGetD d "alphabet_mappings" .none]) else acc
  let acc := if hasKey d "syllables" then
    (acc.1 ++ ["syllables = %s"], acc.2 ++ [pyGetD d "syllables" .none]) else acc
  let acc := if hasKey d "rules" then
    (acc.1 ++ ["rules = %s"], acc.2 ++ [pyGetD d "rules" .none]) else acc
  acc

/-- The `SET` effect of the dynamically built language update statement. -/
def applyLanguageUpdate (d : PyDict) (l : LanguageRow) : LanguageRow :=
  { l with
    name := if hasKey d "name" then pyGetD d "name" .none else l.name,
    phonemes := if hasKey d "phonemes" then pyGetD d "phonemes" .none else l.phonemes,
    alphabet_mappings := if hasKey d "alphabet_mappings" then
      pyGetD d "alphabet_mappings" .none else l.alphabet_mappings,
    syllables := if hasKey d "syllables" then pyGetD d "syllables" .none else l.syllables,
    rules := if hasKey d "rules" then pyGetD d "rules" .none else l.rules }

/-- `update_language`: 400 on a missing id or empty field set; when the
body carries a `user_id`, first select the owner by id alone (404 when
the row is absent, 403 when the owner differs), then run the dynamic
update. -/
def update_language (language_id : Option String) (language_data : PyDict) (db : DB) :
    LambdaResponse × DB × List ExecCall :=
  if !truthyOptStr language_id then
    (lambda_response 400 (errorBody "Language ID is required"), db, [])
  else
    let lid := language_id.getD ""
    let fp := languageUpdateFields language_data
    if fp.1.isEmpty then
      (lambda_response 400 (errorBody "No fields to update"), db, [])
    else
      let runUpdate := fun (pre : List ExecCall) =>
        let query := "UPDATE app_8b514_languages SET " ++ String.intercalate ", " fp.1
          ++ " WHERE id = %s RETURNING *"
        let call : ExecCall := ⟨query, fp.2 ++ [.str lid], true⟩
        let updated := (db.languages.filter (fun l => l.id == lid)).map (applyLanguageUpdate language_data)
        let languages2 := db.languages.map (fun l =>
          if l.id == lid then applyLanguageUpdate language_data l else l)
        let db2 := { db with languages := languages2 }
        match updated with
        | [] => (lambda_response 404 (errorBody "Language not found"), db2, pre ++ [call])
        | r :: _ => (lambda_response 200 (languageRowDict r), db2, pre ++ [call])
      if hasKey language_data "user_id" then
        let call1 : ExecCall := ⟨selectLanguageOwnerQuery, [.str lid], true⟩
        match (db.languages.filter (fun l => l.id == lid)).map (fun l => l.user_id) with
        | [] => (lambda_response 404 (errorBody "Language not found"), db, [call1])
        | owner :: _ =>
          if !(pyScalarEq owner (pyGetD language_data "user_id" .none)) then
            (lambda_response 403 (errorBody "Access denied"), db, [call1])
          else runUpdate [call1]
      else runUpdate []

/-! ### `words.py`

`execute_query` defaults `fetch` to `True`, and `words.py` issues its
translation `DELETE` and `INSERT` statements (which carry no
`RETURNING` clause and hence produce no result set) without passing
`fetch=False`; `cursor.fetchall()` then raises `ProgrammingError`
("no results to fetch"), `execute_query` rolls the statement back and
re-raises, and the exception propagates out of the handler function.
Handlers that can hit this path therefore return a `HandlerOutcome`
rather than a bare response. -/

inductive HandlerOutcome where
  | response (r : LambdaResponse)
  | raised (error : String)

/-- The psycopg2 error raised by `fetchall` on a statement with no
result set. -/
def noResultsMsg : String := "no results to fetch"

def qpGet (qp : List (String × String)) (k : String) : Option String :=
  (qp.find? (fun kv => kv.1 == k)).map (fun kv => kv.2)

def wordRowFields (w : WordRow) : List (String × PyVal) :=
  [("id", .str w.id), ("language_id", w.language_id), ("word", w.word),
   ("ipa", w.ipa), ("pos", w.pos), ("is_root", w.is_root),
   ("embedding", w.embedding), ("created_at", .int w.created_at)]

def wordRowDict (w : WordRow) : PyVal := .dict (wordRowFields w)

def translationAggDict (t : TranslationRow) : PyVal :=
  .dict [("id", .str t.id), ("language_code", t.language_code),
         ("meaning", t.meaning), ("created_at", .int t.created_at)]

/-- Insertion into a list sorted by `le` (model of SQL `ORDER BY`). -/
def insertByLe {α : Type} (le : α → α → Bool) (x : α) : List α → List α
  | [] => [x]
  | y :: ys => if le x y then x :: y :: ys else y :: insertByLe le x ys

def sortByLe {α : Type} (le : α → α → Bool) (l : List α) : List α :=
  l.foldr (insertByLe le) []

/-- The translations of one word, `ORDER BY t.created_at` ascending. -/
def wordTranslationsAgg (db : DB) (wid : String) : List TranslationRow :=
  sortByLe (fun a b => decide (a.created_at ≤ b.created_at))
    (db.translations.filter (fun t => t.word_id == wid))

/-- One row of the aggregated word listing: `w.*` plus the
`app_8b514_translations` JSON array (empty array when none). -/
def wordWithTranslationsDict (db : DB) (w : WordRow) : PyVal :=
  .dict (wordRowFields w ++
    [("app_8b514_translations",
      .list ((wordTranslationsAgg db w.id).map translationAggDict))])

/-- Words of one language, `ORDER BY w.created_at DESC`. -/
def wordsOfLanguage (db : DB) (lid : String) : List WordRow :=
  sortByLe (fun a b => decide (b.created_at ≤ a.created_at))
    (db.words.filter (fun w => pyEqStr w.language_id lid))

def allWordsSorted (db : DB) : List WordRow :=
  sortByLe (fun a b => decide (b.created_at ≤ a.created_at)) db.words

def languageWordsQuery : String :=
  "SELECT w.*, COALESCE(json_agg(json_build_object(id, t.id, language_code, t.language_code, meaning, t.meaning, created_at, t.created_at) ORDER BY t.created_at) FILTER (WHERE t.id IS NOT NULL), empty json array) as app_8b514_translations FROM app_8b514_words w LEFT JOIN app_8b514_translations t ON w.id = t.word_id WHERE w.language_id = %s GROUP BY w.id ORDER BY w.created_at DESC"

def allWordsQuery : String :=
  "SELECT w.*, COALESCE(json_agg(json_build_object(id, t.id, language_code, t.language_code, meaning, t.meaning, created_at, t.created_at) ORDER BY t.created_at) FILTER (WHERE t.id IS NOT NULL), empty json array) as app_8b514_translations FROM app_8b514_words w LEFT JOIN app_8b514_translations t ON w.id = t.word_id GROUP BY w.id ORDER BY w.created_at DESC"

def verifyWordOwnerQuery : String :=
  "SELECT w.id FROM app_8b514_words w JOIN app_8b514_languages l ON w.language_id = l.id WHERE w.id = %s AND l.user_id = %s"

def createWordQuery : String :=
  "INSERT INTO app_8b514_words (language_id, word, ipa, pos, is_root, embedding) VALUES (%s, %s, %s, %s, %s, %s) RETURNING *"

def insertTranslationQuery : String :=
  "INSERT INTO app_8b514_translations (word_id, language_code, meaning) VALUES (%s, %s, %s)"

def deleteTranslationsQuery : String :=
  "DELETE FROM app_8b514_translations WHERE word_id = %s"

/-- `get_words`: the three listing branches; with both `languageId` and
`userId` supplied, the ownership check runs first and a failed check is
the merged not-found-or-denied 404. -/
def get_words (query_params : List (String × String)) (db : DB) :
    LambdaResponse × DB × List ExecCall :=
  let language_id := qpGet query_params "languageId"
  let user_id := qpGet query_params "userId"
  if truthyOptStr language_id && truthyOptStr user_id then
    let lid := language_id.getD ""
    let uid := user_id.getD ""
    let call1 : ExecCall := ⟨verifyLanguageOwnerQuery, [.str lid, .str uid], true⟩
    let verify := db.languages.filter (fun l => l.id == lid && pyEqStr l.user_id uid)
    if verify.isEmpty then
      (lambda_response 404 (errorBody "Language not found or access denied"), db, [call1])
    else
      let call2 : ExecCall := ⟨languageWordsQuery, [.str lid], true⟩
      (lambda_response 200 (.list ((wordsOfLanguage db lid).map (wordWithTranslationsDict db))),
       db, [call1, call2])
  else if truthyOptStr language_id then
    let lid := language_id.getD ""
    let call : ExecCall := ⟨languageWordsQuery, [.str lid], true⟩
    (lambda_response 200 (.list ((wordsOfLanguage db lid).map (wordWithTranslationsDict db))),
     db, [call])
  else
    let call : ExecCall := ⟨allWordsQuery, [], true⟩
    (lambda_response 200 (.list ((allWordsSorted db).map (wordWithTranslationsDict db))),
     db, [call])

/-- `get_language_words`: 400 without a language id; with a `userId`,
the ownership check runs first and a failed check is the merged
not-found-or-denied 404. -/
def get_language_words (language_id user_id : Option String) (db : DB) :
    LambdaResponse × DB × List ExecCall :=
  if !truthyOptStr language_id then
    (lambda_response 400 (errorBody "Language ID is required"), db, [])
  else
    let lid := language_id.getD ""
    let listCall : ExecCall := ⟨languageWordsQuery, [.str lid], true⟩
    let okResponse :=
      lambda_response 200 (.list ((wordsOfLanguage db lid).map (wordWithTranslationsDict db)))
    if truthyOptStr user_id then
      let uid := user_id.getD ""
      let call1 : ExecCall := ⟨verifyLanguageOwnerQuery, [.str lid, .str uid], true⟩
      let verify := db.languages.filter (fun l => l.id == lid && pyEqStr l.user_id uid)
      if verify.isEmpty then
        (lambda_response 404 (errorBody "Language not found or access denied"), db, [call1])
      else (okResponse, db, [call1, listCall])
    else (okResponse, db, [listCall])

def required_fields_word : List String := ["language_id", "word", "ipa"]

/-- The meaning a translation entry supplies (its get of the meaning
key; `None` when absent or when the entry is not a dict). -/
def translationEntryMeaning : PyVal → PyVal
  | .dict d => pyGetD d "meaning" .none
  | _ => .none

def translationEntryLangCode : PyVal → PyVal
  | .dict d => pyGetD d "language_code" (.str "en")
  | _ => .str "en"

/-- Walk the embedded translation list of `create_word`: entries with a
falsy `meaning` are skipped silently; the first entry with a truthy
`meaning` triggers an `INSERT` that raises `noResultsMsg` (no
`RETURNING`, `fetch=True`), and a non-dict entry raises at
`translation.get`.  Returns the raising error and the statement trace
it produced, or `none` when the loop finishes silently. -/
def firstTranslationRaise (wid : String) : List PyVal → Option (String × List ExecCall)
  | [] => none
  | t :: rest =>
    match t with
    | .dict d =>
      let meaning := pyGetD d "meaning" .none
      if meaning.truthy then
        some (noResultsMsg,
          [⟨insertTranslationQuery, [.str wid, pyGetD d "language_code" (.str "en"), meaning], true⟩])
      else firstTranslationRaise wid rest
    | _ => some ("AttributeError: no attribute get", [])

/-- The insert-and-translations tail of `create_word`: the word
`INSERT ... RETURNING *` (committed by its own `execute_query` call),
then the translation loop, whose first actual insert raises (see
`firstTranslationRaise`), leaving the word row committed. -/
def createWordInsert (word_data : PyDict) (db : DB) (pre : List ExecCall) :
    HandlerOutcome × DB × List ExecCall :=
  let row : WordRow :=
    { id := "uuid-" ++ toString db.nextId,
      language_id := pyGetD word_data "language_id" .none,
      word := pyGetD word_data "word" .none,
      ipa := pyGetD word_data "ipa" .none,
      pos := pyGetD word_data "pos" (.list []),
      is_root := pyGetD word_data "is_root" (.bool false),
      embedding := pyGetD word_data "embedding" .none,
      created_at := db.nextId }
  let insCall : ExecCall :=
    ⟨createWordQuery,
     [row.language_id, row.word, row.ipa, row.pos, row.is_root, row.embedding], true⟩
  let db2 := { db with words := db.words ++ [row], nextId := db.nextId + 1 }
  if hasKey word_data "translations" then
    match pyGetD word_data "translations" .none with
    | .list ts =>
      match firstTranslationRaise row.id ts with
      | some (e, calls) => (.raised e, db2, pre ++ [insCall] ++ calls)
      | none => (.response (lambda_response 201 (wordRowDict row)), db2, pre ++ [insCall])
    | _ => (.raised "TypeError: not iterable", db2, pre ++ [insCall])
  else (.response (lambda_response 201 (wordRowDict row)), db2, pre ++ [insCall])

/-- `create_word`: required-field check, optional ownership pre-check
(against the language named by the body), then `createWordInsert`. -/
def create_word (word_data : PyDict) (db : DB) :
    HandlerOutcome × DB × List ExecCall :=
  match firstMissing required_fields_word word_data with
  | some f =>
    (.response (lambda_response 400 (errorBody ("Missing required field: " ++ f))), db, [])
  | none =>
    if hasKey word_data "user_id" then
      let langId := pyGetD word_data "language_id" .none
      let uid := pyGetD word_data "user_id" .none
      let call1 : ExecCall := ⟨verifyLanguageOwnerQuery, [langId, uid], true⟩
      let verify := db.languages.filter (fun l => pyEqStr langId l.id && pyScalarEq l.user_id uid)
      if verify.isEmpty then
        (.response (lambda_response 404 (errorBody "Language not found or access denied")), db, [call1])
      else createWordInsert word_data db [call1]
    else createWordInsert word_data db []

/-- The `update_fields`/`params` pair `update_word` accumulates. -/
def wordUpdateFields (d : PyDict) : List String × List PyVal :=
  let acc : List String × List PyVal := ([], [])
  let acc := if hasKey d "word" then
    (acc.1 ++ ["word = %s"], acc.2 ++ [pyGetD d "word" .none]) else acc
  let acc := if hasKey d "ipa" then
    (acc.1 ++ ["ipa = %s"], acc.2 ++ [pyGetD d "ipa" .none]) else acc
  let acc := if hasKey d "pos" then
    (acc.1 ++ ["pos = %s"], acc.2 ++ [pyGetD d "pos" .none]) else acc
  let acc := if hasKey d "is_root" then
    (acc.1 ++ ["is_root = %s"], acc.2 ++ [pyGetD d "is_root" .none]) else acc
  let acc := if hasKey d "embedding" then
    (acc.1 ++ ["embedding = %s"], acc.2 ++ [pyGetD d "embedding" .none]) else acc
  acc

/-- The `SET` effect of the dynamically built word update statement. -/
def applyWordUpdate (d : PyDict) (w : WordRow) : WordRow :=
  { w with
    word := if hasKey d "word" then pyGetD d "word" .none else w.word,
    ipa := if hasKey d "ipa" then pyGetD d "ipa" .none else w.ipa,
    pos := if hasKey d "pos" then pyGetD d "pos" .none else w.pos,
    is_root := if hasKey d "is_root" then pyGetD d "is_root" .none else w.is_root,
    embedding := if hasKey d "embedding" then pyGetD d "embedding" .none else w.embedding }

/-- Does some language row own this word for the given caller id?
(the `JOIN` of the word-ownership verification query). -/
def wordOwnedBy (db : DB) (w : WordRow) (uid : PyVal) : Bool :=
  db.languages.any (fun l => pyEqStr w.language_id l.id && pyScalarEq l.user_id uid)

/-- `update_word`: 400 without an id; optional ownership pre-check
(404 on failure); 400 on an empty field set; the dynamic
`UPDATE ... RETURNING *` (committed on its own); then, when the body
carries `translations`, the translation `DELETE` raises `noResultsMsg`
(no result set, `fetch=True`), leaving the word update committed and
the stored translations untouched. -/
def update_word (word_id : Option String) (word_data : PyDict) (db : DB) :
    HandlerOutcome × DB × List ExecCall :=
  if !truthyOptStr word_id then
    (.response (lambda_response 400 (errorBody "Word ID is required")), db, [])
  else
    let wid := word_id.getD ""
    let afterCheck := fun (pre : List ExecCall) =>
      let fp := wordUpdateFields word_data
      if fp.1.isEmpty then
        (.response (lambda_response 400 (errorBody "No fields to update")), db, pre)
      else
        let query := "UPDATE app_8b514_words SET " ++ String.intercalate ", " fp.1
          ++ " WHERE id = %s RETURNING *"
        let updCall : ExecCall := ⟨query, fp.2 ++ [.str wid], true⟩
        let updated := (db.words.filter (fun w => w.id == wid)).map (applyWordUpdate word_data)
        let words2 := db.words.map (fun w =>
          if w.id == wid then applyWordUpdate word_data w else w)
        let db2 := { db with words := words2 }
        match updated with
        | [] =>
          (.response (lambda_response 404 (errorBody "Word not found")), db2, pre ++ [updCall])
        | r :: _ =>
          if hasKey word_data "translations" then
            let delCall : ExecCall := ⟨deleteTranslationsQuery, [.str wid], true⟩
            (.raised noResultsMsg, db2, pre ++ [updCall, delCall])
          else
            (.response (lambda_response 200 (wordRowDict r)), db2, pre ++ [updCall])
    if hasKey word_data "user_id" then
      let uid := pyGetD word_data "user_id" .none
      let call1 : ExecCall := ⟨verifyWordOwnerQuery, [.str wid, uid], true⟩
      let verify := db.words.filter (fun w => w.id == wid && wordOwnedBy db w uid)
      if verify.isEmpty then
        (.response (lambda_response 404 (errorBody "Word not found or access denied")), db, [call1])
      else afterCheck [call1]
    else afterCheck []

/-! ### `migration.py` — the migration runner

The runner manipulates a single ledger table (`schema_migrations`) and
executes embedded DDL bodies.  Its state is the set of recorded ledger
versions plus the trace of migration bodies actually executed (each
body and its ledger write commit together, and roll back together on
failure).  Two failure oracles stand for the database:
`readFails` — the ledger `SELECT` raises (swallowed by
`get_applied_migrations`); `sqlFails v` — executing the body of version
`v` raises with the given message. -/

structure Migration where
  version : String
  description : String
  sql : String
deriving Repr, DecidableEq

/- The embedded DDL bodies.  The runner never inspects their text (it
is passed whole to `cursor.execute`), so the statements are abbreviated
here; each is a `BEGIN; ... COMMIT;` block of conditional
`CREATE TABLE IF NOT EXISTS` / `CREATE INDEX IF NOT EXISTS`
statements. -/

def get_initial_schema_migration : String :=
  "BEGIN; CREATE EXTENSION IF NOT EXISTS uuid-ossp; CREATE TABLE IF NOT EXISTS app_8b514_users; CREATE TABLE IF NOT EXISTS app_8b514_languages; CREATE TABLE IF NOT EXISTS app_8b514_words; CREATE TABLE IF NOT EXISTS app_8b514_translations; CREATE TABLE IF NOT EXISTS app_8b514_subscriptions; CREATE INDEXES IF NOT EXISTS; COMMIT;"

def get_etymology_tables_migration : String :=
  "BEGIN; CREATE TABLE IF NOT EXISTS app_8b514_word_etymology; CREATE TABLE IF NOT EXISTS app_8b514_phonological_violations; CREATE INDEXES IF NOT EXISTS; COMMIT;"

def get_user_preferences_migration : String :=
  "BEGIN; CREATE TABLE IF NOT EXISTS app_8b514_user_preferences; CREATE INDEX IF NOT EXISTS idx_user_preferences_user_id; COMMIT;"

/-- The fixed embedded migration registry, in ascending version order. -/
def get_migrations : List Migration :=
  [⟨"20250101_120000", "Initial PhaserAI database schema", get_initial_schema_migration⟩,
   ⟨"20250102_143000", "Add etymology and validation tables", get_etymology_tables_migration⟩,
   ⟨"20250103_091500", "Add user preferences table", get_user_preferences_migration⟩]

/-- Runner-visible database state. -/
structure MigState where
  ledgerExists : Bool
  ledger : List String
  executedBodies : List String
deriving Repr, DecidableEq

/-- `ensure_migrations_table`: conditional create of the ledger table. -/
def ensure_migrations_table (s : MigState) : MigState :=
  { s with ledgerExists := true }

/-- Lexicographic strict comparison of code-point lists (the ordering
SQL and Python use on the version strings). -/
def charListLt : List Char → List Char → Bool
  | [], [] => false
  | [], _ :: _ => true
  | _ :: _, [] => false
  | a :: as, b :: bs =>
    if a.toNat < b.toNat then true
    else if b.toNat < a.toNat then false
    else charListLt as bs

def strLt (a b : String) : Bool := charListLt a.data b.data

def strLe (a b : String) : Bool := strLt a b || a == b

/-- `SELECT version FROM schema_migrations ORDER BY version`. -/
def sortVersions (l : List String) : List String :=
  sortByLe strLe l

/-- `get_applied_migrations`: the recorded versions in ascending order;
a failing read is swallowed and reported as the empty list. -/
def get_applied_migrations (readFails : Bool) (s : MigState) : List String :=
  if readFails then [] else sortVersions s.ledger

/-- `get_pending_migrations`: the embedded registry minus the versions
reported applied. -/
def get_pending_migrations (readFails : Bool) (s : MigState) : List Migration :=
  get_migrations.filter (fun m => !((get_applied_migrations readFails s).contains m.version))

/-- The ledger upsert (`ON CONFLICT (version) DO UPDATE`): a conflict
overwrites timestamp and timing, leaving the version set unchanged. -/
def ledgerUpsert (L : List String) (v : String) : List String :=
  if L.contains v then L else L ++ [v]

/-- `apply_migration`: execute the body and record the version, in one
transaction; on failure the transaction rolls back and the error is
re-raised.  Execution timing is wall-clock glue, modelled as 0 ms. -/
def apply_migration (sqlFails : String → Option String) (m : Migration) (s : MigState) :
    Except String (Nat × MigState) :=
  match sqlFails m.version with
  | some e => .error e
  | none =>
    .ok (0, { s with executedBodies := s.executedBodies ++ [m.version],
                     ledger := ledgerUpsert s.ledger m.version })

/-- One applied-migration record of a run result. -/
structure AppliedMigration where
  version : String
  description : String
  execution_time_ms : Nat
deriving Repr, DecidableEq

/-- The result dictionaries of `run_migrations`: the no-pending success,
the applied-list success, and the failure result, which carries the
triggering error only (message `Migration failed: error`) with no
applied-migration list. -/
inductive RunResult where
  | noPending
  | ok (applied : List AppliedMigration) (total_execution_time_ms : Nat)
  | failed (error : String)
deriving Repr, DecidableEq

/-- The `for migration in pending` loop of `run_migrations`. -/
def runMigrationsLoop (sqlFails : String → Option String) :
    List Migration → MigState → List AppliedMigration → Nat → RunResult × MigState
  | [], s, acc, total => (.ok acc total, s)
  | m :: rest, s, acc, total =>
    match apply_migration sqlFails m s with
    | .error e => (.failed e, s)
    | .ok (t, s2) => runMigrationsLoop sqlFails rest s2 (acc ++ [⟨m.version, m.description, t⟩]) (total + t)

/-- `run_migrations`: ensure the ledger table, compute the pending set,
apply each pending migration in registry order; the surrounding
`try`/`except` turns the first escaping error into the failure result. -/
def run_migrations (readFails : Bool) (sqlFails : String → Option String) (s : MigState) :
    RunResult × MigState :=
  let s := ensure_migrations_table s
  let pending := get_pending_migrations readFails s
  if pending.isEmpty then (.noPending, s)
  else runMigrationsLoop sqlFails pending s [] 0

/-- The status dictionary of `get_status`. -/
structure MigStatus where
  total_migrations : Nat
  applied_count : Nat
  pending_count : Nat
  applied_migrations : List String
  pending_migrations : List String
deriving Repr, DecidableEq

/-- `get_status`: counts and version lists, applying nothing. -/
def get_status (readFails : Bool) (s : MigState) : MigStatus × MigState :=
  let s := ensure_migrations_table s
  ({ total_migrations := get_migrations.length,
     applied_count := (get_applied_migrations readFails s).length,
     pending_count := (get_pending_migrations readFails s).length,
     applied_migrations := get_applied_migrations readFails s,
     pending_migrations := (get_pending_migrations readFails s).map (fun m => m.version) }, s)

/-- An oracle under which no migration body fails. -/
def noFail : String → Option String := fun _ => none

example :
    (run_migrations false noFail ⟨true, ["20250101_120000", "20250102_143000"], []⟩).2.executedBodies
      = ["20250103_091500"] := rfl

example :
    (get_status false (run_migrations false noFail ⟨true, ["20250101_120000", "20250102_143000"], []⟩).2).1.applied_count
      = 3 := rfl

example :
    (update_word (some "w1") [("user_id", .str "bob")]
        ⟨[], [⟨"l1", .str "alice", .str "L", .none, .none, .none, .none, 0⟩],
         [⟨"w1", .str "l1", .str "sun", .str "s", .list [], .bool false, .none, 1⟩], [], 2⟩).1
      = .response (lambda_response 404 (errorBody "Word not found or access denied")) := rfl

/-! ## Helper lemmas -/

lemma pyScalarEq_str_iff (v : PyVal) (s : String) :
    pyScalarEq v (.str s) = true ↔ v = .str s := by
  cases v <;> simp [pyScalarEq]

lemma mem_insertByLe {α : Type} (le : α → α → Bool) (x a : α) (l : List α) :
    a ∈ insertByLe le x l ↔ a = x ∨ a ∈ l := by
  induction l with
  | nil => simp [insertByLe]
  | cons y ys ih =>
    simp only [insertByLe]
    split
    · simp
    · simp [ih]
      tauto

lemma mem_sortByLe {α : Type} (le : α → α → Bool) (a : α) (l : List α) :
    a ∈ sortByLe le l ↔ a ∈ l := by
  induction l with
  | nil => simp [sortByLe]
  | cons y ys ih =>
    simp only [sortByLe, List.foldr_cons] at *
    rw [mem_insertByLe, ih]
    simp

lemma contains_sortVersions (l : List String) (v : String) :
    (sortVersions l).contains v = l.contains v := by
  simp only [List.elem_eq_mem, sortVersions, mem_sortByLe]

lemma pyGet_eq_none_of_hasKey_false {d : PyDict} {k : String}
    (h : hasKey d k = false) : pyGet d k = none := by
  unfold hasKey at h
  unfold pyGet
  rw [List.find?_eq_none.mpr]
  · rfl
  · intro kv hkv
    have := List.any_eq_false.mp h kv hkv
    simp [this]

/-! ## C8 — `execute_query` transaction and release discipline -/

/-- C8: every `execute_query` call commits and returns the statement
result on success (row records when `fetch` is true, the affected-row
count when it is false), rolls back to the pre-call state and re-raises
the same error on a statement failure, and closes the cursor and the
connection in both cases. -/
theorem execute_query_transaction_spec {σ : Type}
    (exec : σ → StmtOutcome σ) (fetch : Bool) (s : σ) :
    (∀ s2 desc rows rc, exec s = .ok s2 desc rows rc →
      (execute_query exec fetch s).result
          = .ok (if fetch then fetchResult desc rows else .int rc)
        ∧ (execute_query exec fetch s).state = s2) ∧
    (∀ e, exec s = .raised e →
      (execute_query exec fetch s).result = .error e
        ∧ (execute_query exec fetch s).state = s) ∧
    (execute_query exec fetch s).cursorClosed = true ∧
    (execute_query exec fetch s).connectionClosed = true := by
  refine ⟨?_, ?_, ?_, ?_⟩
  · intro s2 desc rows rc h
    cases fetch <;> simp [execute_query, h]
  · intro e h
    simp [execute_query, h]
  · cases h : exec s <;> cases fetch <;> simp [execute_query, h]
  · cases h : exec s <;> cases fetch <;> simp [execute_query, h]

def execOkProbe : Nat → StmtOutcome Nat :=
  fun n => .ok (n + 1) (some ["id"]) [[.str "w1"]] 1

def execErrProbe : Nat → StmtOutcome Nat :=
  fun _ => .raised "boom"

theorem execute_query_transaction_spec_witness :
    ((execute_query execOkProbe true 0).result
        = .ok (.list [.dict [("id", .str "w1")]])
      ∧ (execute_query execOkProbe true 0).state = 1)
    ∧ ((execute_query execErrProbe false 5).result = .error "boom"
      ∧ (execute_query execErrProbe false 5).state = 5)
    ∧ (execute_query execErrProbe true 7).cursorClosed = true
    ∧ (execute_query execErrProbe true 7).connectionClosed = true := by
  refine ⟨?_, ?_, ?_, ?_⟩
  · have h := (execute_query_transaction_spec execOkProbe true 0).1
      1 (some ["id"]) [[.str "w1"]] 1 rfl
    exact ⟨h.1, h.2⟩
  · exact (execute_query_transaction_spec execErrProbe false 5).2.1 "boom" rfl
  · exact (execute_query_transaction_spec execErrProbe true 7).2.2.1
  · exact (execute_query_transaction_spec execErrProbe true 7).2.2.2

/-! ## C9 — `extract_body` -/

/-- C9 (counterexample): body extraction is not total — a string body
that is not valid JSON makes `json.loads` raise, so the claim that it
never raises is false at this input. -/
theorem extract_body_malformed_counterexample :
    extract_body [("body", .str "not json")] = .error "invalid literal" := rfl

/-- C9 (amended): body extraction returns the empty mapping when the
body key is absent or the body is the empty string, hands a non-empty
string body to the JSON parser (so it returns the parsed value on valid
JSON and raises on malformed JSON), and passes a structured
(non-string) body through unchanged. -/
theorem extract_body_spec (event : PyDict) (s : String) (v : PyVal) :
    (hasKey event "body" = false → extract_body event = .ok (.dict [])) ∧
    (pyGet event "body" = some (.str "") → extract_body event = .ok (.dict [])) ∧
    (pyGet event "body" = some (.str s) → s ≠ "" → extract_body event = jsonLoads s) ∧
    (pyGet event "body" = some v → (∀ t, v ≠ .str t) → extract_body event = .ok v) := by
  refine ⟨?_, ?_, ?_, ?_⟩
  · intro h
    have hg := pyGet_eq_none_of_hasKey_false h
    simp [extract_body, pyGetD, hg]
    rfl
  · intro h
    simp [extract_body, pyGetD, h]
  · intro h hs
    simp [extract_body, pyGetD, h, hs]
  · intro h hv
    cases v <;> simp [extract_body, pyGetD, h]
    exact absurd rfl (hv _)

theorem extract_body_spec_witness :
    (extract_body [] = .ok (.dict [])) ∧
    (extract_body [("body", .str "")] = .ok (.dict [])) ∧
    (extract_body [("body", .str "[1]")] = jsonLoads "[1]") ∧
    (extract_body [("body", .dict [("a", .int 1)])] = .ok (.dict [("a", .int 1)])) := by
  refine ⟨?_, ?_, ?_, ?_⟩
  · exact (extract_body_spec [] "x" .none).1 rfl
  · exact (extract_body_spec [("body", .str "")] "x" .none).2.1 rfl
  · exact (extract_body_spec [("body", .str "[1]")] "[1]" .none).2.2.1 rfl (by decide)
  · exact (extract_body_spec [("body", .dict [("a", .int 1)])] "x" (.dict [("a", .int 1)])).2.2.2
      rfl (fun t h => by cases h)

/-! ## C4 — create-handler required-field validation -/

def emptyDB : DB := ⟨[], [], [], [], 0⟩

/-- C4: a create payload missing a required field gets a 400 naming the
first missing field of the fixed per-entity order (Language: user_id,
name; Word: language_id, word, ipa; User: user_id, email, username),
with no statement executed and the stored state unchanged. -/
theorem create_missing_required_field_spec (data : PyDict) (db : DB) (f : String) :
    (firstMissing required_fields_language data = some f →
      create_language data db
        = (lambda_response 400 (errorBody ("Missing required field: " ++ f)), db, [])) ∧
    (firstMissing required_fields_word data = some f →
      create_word data db
        = (.response (lambda_response 400 (errorBody ("Missing required field: " ++ f))), db, [])) ∧
    (firstMissing required_fields_user data = some f →
      create_or_update_user data db
        = (lambda_response 400 (errorBody ("Missing required field: " ++ f)), db, [])) := by
  refine ⟨?_, ?_, ?_⟩ <;> intro h
  · simp [create_language, h]
  · simp [create_word, h]
  · simp [create_or_update_user, h]

theorem create_missing_required_field_spec_witness :
    (firstMissing required_fields_language [("name", .str "Elvish")] = some "user_id"
      ∧ create_language [("name", .str "Elvish")] emptyDB
          = (lambda_response 400 (errorBody "Missing required field: user_id"), emptyDB, [])) ∧
    (firstMissing required_fields_word [("word", .str "sun")] = some "language_id"
      ∧ create_word [("word", .str "sun")] emptyDB
          = (.response (lambda_response 400 (errorBody "Missing required field: language_id")), emptyDB, [])) ∧
    (firstMissing required_fields_user [("user_id", .str "u1"), ("email", .str "e")] = some "username"
      ∧ create_or_update_user [("user_id", .str "u1"), ("email", .str "e")] emptyDB
          = (lambda_response 400 (errorBody "Missing required field: username"), emptyDB, [])) := by
  refine ⟨⟨rfl, ?_⟩, ⟨rfl, ?_⟩, ⟨rfl, ?_⟩⟩
  · exact (create_missing_required_field_spec _ emptyDB "user_id").1 rfl
  · exact (create_missing_required_field_spec _ emptyDB "language_id").2.1 rfl
  · exact (create_missing_required_field_spec _ emptyDB "username").2.2 rfl

/-! ## C3 — word listing does not leak language existence -/

/-- C3: listing the words of a language with a caller-supplied `userId`
that does not own it (because the row is absent or owned by someone
else) yields the merged not-found-or-denied 404, and the response is
identical for any two states in which the ownership test fails — in
particular whether or not the language row exists.  Both listing entry
points (`get_language_words` and the filtered `get_words`) behave so. -/
theorem word_listing_nonowner_not_found (db1 db2 : DB) (lid uid : String)
    (hlid : lid ≠ "") (huid : uid ≠ "")
    (h1 : ∀ l ∈ db1.languages, (l.id == lid && pyEqStr l.user_id uid) = false)
    (h2 : ∀ l ∈ db2.languages, (l.id == lid && pyEqStr l.user_id uid) = false) :
    (get_language_words (some lid) (some uid) db1).1
        = lambda_response 404 (errorBody "Language not found or access denied") ∧
    (get_language_words (some lid) (some uid) db1).1
        = (get_language_words (some lid) (some uid) db2).1 ∧
    (get_words [("languageId", lid), ("userId", uid)] db1).1
        = lambda_response 404 (errorBody "Language not found or access denied") ∧
    (get_words [("languageId", lid), ("userId", uid)] db1).1
        = (get_words [("languageId", lid), ("userId", uid)] db2).1 := by
  have e1 : db1.languages.filter (fun l => l.id == lid && pyEqStr l.user_id uid) = [] := by
    rw [List.filter_eq_nil_iff]
    intro a ha
    simp [h1 a ha]
  have e2 : db2.languages.filter (fun l => l.id == lid && pyEqStr l.user_id uid) = [] := by
    rw [List.filter_eq_nil_iff]
    intro a ha
    simp [h2 a ha]
  have hq1 : qpGet [("languageId", lid), ("userId", uid)] "languageId" = some lid := rfl
  have hq2 : qpGet [("languageId", lid), ("userId", uid)] "userId" = some uid := rfl
  have hglw1 : (get_language_words (some lid) (some uid) db1).1
      = lambda_response 404 (errorBody "Language not found or access denied") := by
    simp [get_language_words, truthyOptStr, hlid, huid, e1]
  have hglw2 : (get_language_words (some lid) (some uid) db2).1
      = lambda_response 404 (errorBody "Language not found or access denied") := by
    simp [get_language_words, truthyOptStr, hlid, huid, e2]
  have hgw1 : (get_words [("languageId", lid), ("userId", uid)] db1).1
      = lambda_response 404 (errorBody "Language not found or access denied") := by
    simp [get_words, hq1, hq2, truthyOptStr, hlid, huid, e1]
  have hgw2 : (get_words [("languageId", lid), ("userId", uid)] db2).1
      = lambda_response 404 (errorBody "Language not found or access denied") := by
    simp [get_words, hq1, hq2, truthyOptStr, hlid, huid, e2]
  exact ⟨hglw1, hglw1.trans hglw2.symm, hgw1, hgw1.trans hgw2.symm⟩

def aliceDB : DB :=
  ⟨[], [⟨"l1", .str "alice", .str "Elvish", .none, .none, .none, .none, 0⟩], [], [], 1⟩

/-! ## C6 — language update ownership check -/

/-- C6: a language update whose body carries a `user_id` and at least
one recognized updatable field first selects the row by id alone: when
the row exists but its owner differs from the supplied `user_id` the
handler answers 403 access-denied with the state unchanged and only the
owner `SELECT` executed; when no row with that id exists it answers
404. -/
theorem update_language_ownership_spec (db : DB) (lid : String) (body : PyDict)
    (hlid : lid ≠ "")
    (hkey : hasKey body "user_id" = true)
    (hfields : (languageUpdateFields body).1 ≠ []) :
    (db.languages.filter (fun l => l.id == lid) = [] →
      update_language (some lid) body db
        = (lambda_response 404 (errorBody "Language not found"), db,
           [⟨selectLanguageOwnerQuery, [.str lid], true⟩])) ∧
    (∀ l0 rest, db.languages.filter (fun l => l.id == lid) = l0 :: rest →
      pyScalarEq l0.user_id (pyGetD body "user_id" .none) = false →
      update_language (some lid) body db
        = (lambda_response 403 (errorBody "Access denied"), db,
           [⟨selectLanguageOwnerQuery, [.str lid], true⟩])) := by
  have hf : (languageUpdateFields body).1.isEmpty = false := by
    cases hcase : (languageUpdateFields body).1 with
    | nil => exact absurd hcase hfields
    | cons a as => simp
  constructor
  · intro hnil
    simp [update_language, truthyOptStr, hlid, hf, hkey, hnil]
  · intro l0 rest hcons hne
    simp [update_language, truthyOptStr, hlid, hf, hkey, hcons, hne]

theorem update_language_ownership_spec_witness :
    (update_language (some "l1") [("name", .str "Sindarin"), ("user_id", .str "bob")] aliceDB
        = (lambda_response 403 (errorBody "Access denied"), aliceDB,
           [⟨selectLanguageOwnerQuery, [.str "l1"], true⟩])) ∧
    (update_language (some "l9") [("name", .str "Sindarin"), ("user_id", .str "bob")] aliceDB
        = (lambda_response 404 (errorBody "Language not found"), aliceDB,
           [⟨selectLanguageOwnerQuery, [.str "l9"], true⟩])) := by
  constructor
  · exact (update_language_ownership_spec aliceDB "l1"
        [("name", .str "Sindarin"), ("user_id", .str "bob")]
        (by decide) rfl (by decide)).2
      ⟨"l1", .str "alice", .str "Elvish", .none, .none, .none, .none, 0⟩ [] rfl rfl
  · exact (update_language_ownership_spec aliceDB "l9"
        [("name", .str "Sindarin"), ("user_id", .str "bob")]
        (by decide) rfl (by decide)).1 rfl

/-! ## C7 — updates with no recognized field -/

def wordDB : DB :=
  ⟨[], [⟨"l1", .str "alice", .str "Elvish", .none, .none, .none, .none, 0⟩],
   [⟨"w1", .str "l1", .str "sun", .str "s", .list [], .bool false, .none, 1⟩], [], 2⟩

/-- C7 (counterexample): an update body with none of the recognized
word fields does not always get a 400 — when it carries a `user_id`
that fails the word-ownership pre-check, `update_word` answers the
merged 404 before ever looking at the field set. -/
theorem update_word_no_fields_counterexample :
    update_word (some "w1") [("user_id", .str "bob")] wordDB
        = (.response (lambda_response 404 (errorBody "Word not found or access denied")), wordDB,
           [⟨verifyWordOwnerQuery, [.str "w1", .str "bob"], true⟩]) ∧
    (lambda_response 404 (errorBody "Word not found or access denied")).statusCode ≠ 400 :=
  ⟨rfl, by decide⟩

/-- C7 (amended): an update body containing none of the recognized
updatable fields yields a 400 with no update statement executed and the
state unchanged for the user and language handlers always, and for the
word handler whenever the body has no `user_id` or its `user_id` passes
the ownership pre-check; when that pre-check fails, the word handler
answers the merged 404 instead — still with no update statement and the
state unchanged. -/
theorem update_no_recognized_fields_spec
    (uid lid wid : String) (bodyU bodyL bodyW : PyDict) (dbU dbL dbW : DB)
    (huid : uid ≠ "") (hlid : lid ≠ "") (hwid : wid ≠ "")
    (hu : (userUpdateFields bodyU).1 = [])
    (hl : (languageUpdateFields bodyL).1 = [])
    (hw : (wordUpdateFields bodyW).1 = []) :
    update_user (some uid) bodyU dbU
        = (lambda_response 400 (errorBody "No fields to update"), dbU, []) ∧
    update_language (some lid) bodyL dbL
        = (lambda_response 400 (errorBody "No fields to update"), dbL, []) ∧
    (hasKey bodyW "user_id" = false →
      update_word (some wid) bodyW dbW
        = (.response (lambda_response 400 (errorBody "No fields to update")), dbW, [])) ∧
    (hasKey bodyW "user_id" = true →
      (dbW.words.filter (fun w => w.id == wid
          && wordOwnedBy dbW w (pyGetD bodyW "user_id" .none))).isEmpty = false →
      update_word (some wid) bodyW dbW
        = (.response (lambda_response 400 (errorBody "No fields to update")), dbW,
           [⟨verifyWordOwnerQuery, [.str wid, pyGetD bodyW "user_id" .none], true⟩])) ∧
    (hasKey bodyW "user_id" = true →
      (dbW.words.filter (fun w => w.id == wid
          && wordOwnedBy dbW w (pyGetD bodyW "user_id" .none))).isEmpty = true →
      update_word (some wid) bodyW dbW
        = (.response (lambda_response 404 (errorBody "Word not found or access denied")), dbW,
           [⟨verifyWordOwnerQuery, [.str wid, pyGetD bodyW "user_id" .none], true⟩])) := by
  have hfu : (userUpdateFields bodyU).1.isEmpty = true := by simp [hu]
  have hfw : (wordUpdateFields bodyW).1.isEmpty = true := by simp [hw]
  have hfl : (languageUpdateFields bodyL).1.isEmpty = true := by simp [hl]
  refine ⟨?_, ?_, ?_, ?_, ?_⟩
  · simp [update_user, truthyOptStr, huid, hfu]
  · simp [update_language, truthyOptStr, hlid, hfl]
  · intro hk
    simp [update_word, truthyOptStr, hwid, hk, hfw]
  · intro hk hverify
    simp [update_word, truthyOptStr, hwid, hk, hfw, hverify]
  · intro hk hverify
    simp [update_word, truthyOptStr, hwid, hk, hfw, hverify]

theorem update_no_recognized_fields_spec_witness :
    update_user (some "u1") [] emptyDB
        = (lambda_response 400 (errorBody "No fields to update"), emptyDB, []) ∧
    update_language (some "l1") [] emptyDB
        = (lambda_response 400 (errorBody "No fields to update"), emptyDB, []) ∧
    update_word (some "w1") [] wordDB
        = (.response (lambda_response 400 (errorBody "No fields to update")), wordDB, []) ∧
    update_word (some "w1") [("user_id", .str "alice")] wordDB
        = (.response (lambda_response 400 (errorBody "No fields to update")), wordDB,
           [⟨verifyWordOwnerQuery, [.str "w1", .str "alice"], true⟩]) ∧
    update_word (some "w9") [("user_id", .str "alice")] wordDB
        = (.response (lambda_response 404 (errorBody "Word not found or access denied")), wordDB,
           [⟨verifyWordOwnerQuery, [.str "w9", .str "alice"], true⟩]) := by
  have h1 := update_no_recognized_fields_spec "u1" "l1" "w1" [] [] []
      emptyDB emptyDB wordDB (by decide) (by decide) (by decide) rfl rfl rfl
  have h2 := update_no_recognized_fields_spec "u1" "l1" "w1" [] [] [("user_id", .str "alice")]
      emptyDB emptyDB wordDB (by decide) (by decide) (by decide) rfl rfl rfl
  have h3 := update_no_recognized_fields_spec "u1" "l1" "w9" [] [] [("user_id", .str "alice")]
      emptyDB emptyDB wordDB (by decide) (by decide) (by decide) rfl rfl rfl
  exact ⟨h1.1, h1.2.1, h1.2.2.1 rfl, h2.2.2.2.1 rfl rfl, h3.2.2.2.2 rfl rfl⟩

/-! ## C2 — the word-update translations replace never succeeds -/

def transDB : DB :=
  ⟨[], [⟨"l1", .str "alice", .str "Elvish", .none, .none, .none, .none, 0⟩],
   [⟨"w1", .str "l1", .str "sun", .str "s", .list [], .bool false, .none, 1⟩],
   [⟨"t1", "w1", .str "en", .str "A", 2⟩, ⟨"t2", "w1", .str "en", .str "B", 3⟩], 4⟩

def replaceBody : PyDict :=
  [("word", .str "moon"), ("translations", .list [.dict [("meaning", .str "C")]])]

/-- C2: evaluating the code at the claimed scenario — an existing word
with translations A,B updated with field `word` and a new translations
list `[C]` — the `DELETE` on the translations table (issued with the
default `fetch=True` and no result set) raises "no results to fetch",
so the handler errors out with the word-field update committed and
translations A,B still attached; the wholesale replace never happens. -/
theorem update_word_translations_replace_never_happens :
    (update_word (some "w1") replaceBody transDB).1 = HandlerOutcome.raised noResultsMsg ∧
    ((update_word (some "w1") replaceBody transDB).2.1).translations = transDB.translations ∧
    ((update_word (some "w1") replaceBody transDB).2.1).words
        = [⟨"w1", .str "l1", .str "moon", .str "s", .list [], .bool false, .none, 1⟩] ∧
    (update_word (some "w1") replaceBody transDB).2.2
        = [⟨"UPDATE app_8b514_words SET word = %s WHERE id = %s RETURNING *",
            [.str "moon", .str "w1"], true⟩,
           ⟨deleteTranslationsQuery, [.str "w1"], true⟩] :=
  ⟨rfl, rfl, rfl, rfl⟩

theorem word_listing_nonowner_not_found_witness :
    ((get_language_words (some "l1") (some "bob") aliceDB).1
        = lambda_response 404 (errorBody "Language not found or access denied")) ∧
    ((get_language_words (some "l1") (some "bob") aliceDB).1
        = (get_language_words (some "l1") (some "bob") emptyDB).1) ∧
    ((get_words [("languageId", "l1"), ("userId", "bob")] aliceDB).1
        = lambda_response 404 (errorBody "Language not found or access denied")) ∧
    ((get_words [("languageId", "l1"), ("userId", "bob")] aliceDB).1
        = (get_words [("languageId", "l1"), ("userId", "bob")] emptyDB).1) := by
  exact word_listing_nonowner_not_found aliceDB emptyDB "l1" "bob"
    (by decide) (by decide) (by decide) (by decide)

/-! ## Migration-runner lemmas -/

lemma runMigrationsLoop_noFail (ms : List Migration) (s : MigState)
    (acc : List AppliedMigration) (total : Nat) :
    runMigrationsLoop noFail ms s acc total
      = (.ok (acc ++ ms.map (fun m => ⟨m.version, m.description, 0⟩)) total,
         { s with executedBodies := s.executedBodies ++ ms.map (fun m => m.version),
                  ledger := ms.foldl (fun L m => ledgerUpsert L m.version) s.ledger }) := by
  induction ms generalizing s acc total with
  | nil => simp [runMigrationsLoop]
  | cons m rest ih =>
    simp only [runMigrationsLoop, apply_migration, noFail, List.map_cons, List.foldl_cons]
    rw [ih]
    simp [List.append_assoc]

lemma foldl_ledgerUpsert_append :
    ∀ (vs L : List String), (∀ v ∈ vs, v ∉ L) → vs.Nodup →
      vs.foldl ledgerUpsert L = L ++ vs := by
  intro vs
  induction vs with
  | nil => intro L _ _; simp
  | cons v rest ih =>
    intro L h hnd
    have hv : v ∉ L := h v (by simp)
    have hstep : ledgerUpsert L v = L ++ [v] := by
      simp [ledgerUpsert, List.elem_eq_mem, hv]
    have hrest : ∀ u ∈ rest, u ∉ L ++ [v] := by
      intro u hu
      have hu1 : u ∉ L := h u (by simp [hu])
      have hne : u ≠ v := by
        rcases List.nodup_cons.mp hnd with ⟨hv2, _⟩
        intro e
        exact hv2 (e ▸ hu)
      simp [List.mem_append, hu1, hne]
    rw [List.foldl_cons, hstep, ih (L ++ [v]) hrest (List.nodup_cons.mp hnd).2]
    simp

lemma runMigrationsLoop_fail (sqlFails : String → Option String)
    (bad : Migration) (e : String) (hbad : sqlFails bad.version = some e) :
    ∀ (pre rest : List Migration), (∀ m ∈ pre, sqlFails m.version = none) →
    ∀ (s : MigState) (acc : List AppliedMigration) (total : Nat),
      runMigrationsLoop sqlFails (pre ++ bad :: rest) s acc total
        = (.failed e,
           { s with executedBodies := s.executedBodies ++ pre.map (fun m => m.version),
                    ledger := pre.foldl (fun L m => ledgerUpsert L m.version) s.ledger }) := by
  intro pre
  induction pre with
  | nil =>
    intro rest _ s acc total
    simp [runMigrationsLoop, apply_migration, hbad]
  | cons m ms ih =>
    intro rest h s acc total
    have hm : sqlFails m.version = none := h m (by simp)
    simp only [List.cons_append, runMigrationsLoop, apply_migration, hm,
      List.map_cons, List.foldl_cons, List.append_eq]
    rw [ih rest (fun u hu => h u (by simp [hu]))]
    simp [List.append_assoc]

/-! ## C1 — pending set, run order, ledger recording, status -/

def migTwoApplied : MigState :=
  ⟨true, ["20250101_120000", "20250102_143000"], []⟩

/-- C1: for every ledger state, the pending set is exactly the fixed
embedded registry minus the versions present in the ledger, a run with
no body failure executes exactly the pending bodies in ascending
version order and appends exactly their versions to the ledger, its
result lists exactly those migrations; and in the concrete scenario
with versions 1 and 2 applied out of 3, pending is version 3 alone, the
run executes only it, and a subsequent status reports applied_count 3
and pending_count 0. -/
theorem migration_pending_run_status_spec (s : MigState) :
    get_pending_migrations false s
        = get_migrations.filter (fun m => !(s.ledger.contains m.version)) ∧
    List.Pairwise (fun a b : Migration => strLt a.version b.version = true)
        (get_pending_migrations false s) ∧
    (run_migrations false noFail s).2.executedBodies
        = s.executedBodies ++ (get_pending_migrations false s).map (fun m => m.version) ∧
    (run_migrations false noFail s).2.ledger
        = s.ledger ++ (get_pending_migrations false s).map (fun m => m.version) ∧
    (run_migrations false noFail s).1
        = (if (get_pending_migrations false s).isEmpty then RunResult.noPending
           else RunResult.ok
             ((get_pending_migrations false s).map (fun m => ⟨m.version, m.description, 0⟩)) 0) ∧
    (get_pending_migrations false migTwoApplied).map (fun m => m.version)
        = ["20250103_091500"] ∧
    (run_migrations false noFail migTwoApplied).2.executedBodies = ["20250103_091500"] ∧
    (get_status false (run_migrations false noFail migTwoApplied).2).1.applied_count = 3 ∧
    (get_status false (run_migrations false noFail migTwoApplied).2).1.pending_count = 0 := by
  have hpend : get_pending_migrations false s
      = get_migrations.filter (fun m => !(s.ledger.contains m.version)) := by
    unfold get_pending_migrations
    refine List.filter_congr ?_
    intro m _
    rw [show get_applied_migrations false s = sortVersions s.ledger from rfl,
      contains_sortVersions]
  have hP : List.Pairwise (fun a b : Migration => strLt a.version b.version = true)
      get_migrations := by decide
  have hps : get_pending_migrations false (ensure_migrations_table s)
      = get_pending_migrations false s := rfl
  have hnotin : ∀ v ∈ (get_pending_migrations false s).map (fun m => m.version),
      v ∉ s.ledger := by
    intro v hv
    rcases List.mem_map.mp hv with ⟨m, hm, rfl⟩
    rw [hpend] at hm
    have := List.of_mem_filter hm
    simp only [Bool.not_eq_true', List.elem_eq_mem, decide_eq_false_iff_not] at this
    exact this
  have hnd : ((get_pending_migrations false s).map (fun m => m.version)).Nodup := by
    have hbase : (get_migrations.map (fun m => m.version)).Nodup := by decide
    exact hbase.sublist ((List.filter_sublist _).map _)
  have hfold : (get_pending_migrations false s).foldl
        (fun L m => ledgerUpsert L m.version) s.ledger
      = s.ledger ++ (get_pending_migrations false s).map (fun m => m.version) := by
    have h := foldl_ledgerUpsert_append
      ((get_pending_migrations false s).map (fun m => m.version)) s.ledger hnotin hnd
    rw [List.foldl_map] at h
    exact h
  have hrun : run_migrations false noFail s
      = ((if (get_pending_migrations false s).isEmpty then RunResult.noPending
          else RunResult.ok
            ((get_pending_migrations false s).map (fun m => ⟨m.version, m.description, 0⟩)) 0),
         { s with ledgerExists := true,
                  executedBodies := s.executedBodies
                      ++ (get_pending_migrations false s).map (fun m => m.version),
                  ledger := s.ledger
                      ++ (get_pending_migrations false s).map (fun m => m.version) }) := by
    by_cases hemp : (get_pending_migrations false s).isEmpty
    · have hnil : get_pending_migrations false s = [] := by
        simpa using hemp
      have hnil2 : get_pending_migrations false
          { s with ledgerExists := true } = [] := hnil
      simp [run_migrations, ensure_migrations_table, hnil, hnil2]
    · have hloop := runMigrationsLoop_noFail (get_pending_migrations false s)
        (ensure_migrations_table s) [] 0
      simp only [run_migrations, hps, hemp, if_neg, Bool.false_eq_true, not_false_iff]
      rw [hloop]
      simp [ensure_migrations_table, hfold]
  refine ⟨hpend, ?_, ?_, ?_, ?_, rfl, rfl, rfl, rfl⟩
  · rw [hpend]
    exact hP.sublist (List.filter_sublist _)
  · rw [hrun]
  · rw [hrun]
  · rw [hrun]

/-! ## C5 — a failing migration aborts the run -/

/-- C5: when the pending list is an all-succeeding prefix followed by a
failing migration, the run applies and records exactly the prefix
(nothing later runs, nothing applied is rolled back) and returns the
single failure result carrying only the triggering error, with no
per-migration result list. -/
theorem migration_failure_aborts_run (s : MigState) (sqlFails : String → Option String)
    (pre : List Migration) (bad : Migration) (rest : List Migration) (e : String)
    (hpend : get_pending_migrations false s = pre ++ bad :: rest)
    (hpre : ∀ m ∈ pre, sqlFails m.version = none)
    (hbad : sqlFails bad.version = some e) :
    run_migrations false sqlFails s
      = (.failed e,
         { s with ledgerExists := true,
                  executedBodies := s.executedBodies ++ pre.map (fun m => m.version),
                  ledger := pre.foldl (fun L m => ledgerUpsert L m.version) s.ledger }) := by
  have hps : get_pending_migrations false (ensure_migrations_table s)
      = pre ++ bad :: rest := hpend
  have hemp : (pre ++ bad :: rest).isEmpty = false := by
    cases pre <;> simp
  simp only [run_migrations, hps, hemp, Bool.false_eq_true, if_false]
  exact runMigrationsLoop_fail sqlFails bad e hbad pre rest hpre
    (ensure_migrations_table s) [] 0

def failSecond : String → Option String :=
  fun v => if v == "20250102_143000" then some "boom" else none

def migFreshState : MigState := ⟨false, [], []⟩

theorem migration_failure_aborts_run_witness :
    run_migrations false failSecond migFreshState
      = (.failed "boom", ⟨true, ["20250101_120000"], ["20250101_120000"]⟩) :=
  migration_failure_aborts_run migFreshState failSecond
    [⟨"20250101_120000", "Initial PhaserAI database schema", get_initial_schema_migration⟩]
    ⟨"20250102_143000", "Add etymology and validation tables", get_etymology_tables_migration⟩
    [⟨"20250103_091500", "Add user preferences table", get_user_preferences_migration⟩]
    "boom" rfl (by decide) rfl

/-! ## C10 — a failing ledger read empties the applied set -/

def migAllApplied : MigState :=
  ⟨true, ["20250101_120000", "20250102_143000", "20250103_091500"], []⟩

/-- C10: when reading the ledger fails, `get_applied_migrations`
swallows the error and reports the empty list, every known migration
counts as pending, and a run re-executes all three migration bodies —
also when the ledger already records every version as applied. -/
theorem migration_ledger_read_failure_spec (s : MigState) :
    get_applied_migrations true s = [] ∧
    get_pending_migrations true s = get_migrations ∧
    (run_migrations true noFail s).2.executedBodies
      = s.executedBodies ++ ["20250101_120000", "20250102_143000", "20250103_091500"] ∧
    (run_migrations true noFail migAllApplied).2.executedBodies
      = ["20250101_120000", "20250102_143000", "20250103_091500"] := by
  refine ⟨rfl, rfl, ?_, rfl⟩
  have e : run_migrations true noFail s
      = runMigrationsLoop noFail (get_pending_migrations true (ensure_migrations_table s))
          (ensure_migrations_table s) [] 0 := rfl
  rw [e, runMigrationsLoop_noFail]
  rfl

end PhaserAI
